import Mathlib

/-!
Shallow embedding of the parts of the Mustaphamexy/Alx_DjangoLearnLab
repository that the specification's claims are about, together with
theorems settling those claims.

Three sub-projects are modelled, each in its own namespace:

* `SocialMediaApi` — the `social_media_api` Django project: the follower
  graph on `CustomUser` (accounts/models.py), `Post`/`Comment`/`Like`
  (posts/models.py), `Notification` (notifications/models.py), and the
  request handlers `FollowUserView.post` (accounts/views.py),
  `LikePostView.post`, `UnlikePostView.post`, `LikeCommentView.post`,
  `PostViewSet.comment` (posts/views.py) and
  `FeedAlgorithm.get_personalized_feed` (posts/feed_algorithm.py).

* `AdvancedApi` — the `advanced-api-project`: the `Book`/`Author` schema
  (api/models.py), `BookSerializer` validation (api/serializers.py),
  `BookBulkOperationsView.post` (api/views.py) and the
  `IsOwnerOrReadOnly` permission (api/permissions.py).

* `DjangoModels` — the `django-models/LibraryProject/relationship_app`
  app: `UserProfile` and the `create_user_profile` post-save signal
  (relationship_app/models.py).

Database rows are records, tables are lists of records, and each request
handler is a pure function from a state (plus the request data the view
reads) to an HTTP response paired with the successor state.  Ids and
timestamps are `Nat`.  Django auto-increment primary keys are modelled by
taking one more than the maximum id present.  Only the authenticated
path of each view is modelled, since every claim quantifies over
authenticated requests (each view carries `permission_classes =
[IsAuthenticated]`, under which an unauthenticated request is rejected
before the handler body runs).
-/

namespace SocialMediaApi

/-- ContentType rows of `django.contrib.contenttypes`: the two content types the `Like`
generic foreign key ranges over in posts/views.py
(`ContentType.objects.get_for_model(Post)` and `...(Comment)`). -/
inductive CType where
  | post
  | comment
deriving DecidableEq, Repr

/-- posts/models.py `Post`: `author` FK, `title`, `content`, `created_at`
(the `image` field and `updated_at` play no role in any claim and carry
no constraint; they are omitted from the row).  Note that `Post` declares
no `likes` field and no `GenericRelation` to `Like`. -/
structure Post where
  id : Nat
  author : Nat
  title : String
  content : String
  created_at : Nat
deriving DecidableEq, Repr

/-- posts/models.py `Comment`: `post` FK, `author` FK, `content`,
`created_at`. -/
structure Comment where
  id : Nat
  post : Nat
  author : Nat
  content : String
  created_at : Nat
deriving DecidableEq, Repr

/-- posts/models.py `Like`: `user` FK, generic target
(`content_type`, `object_id`), `created_at`.
`Meta.unique_together = ['user', 'content_type', 'object_id']`. -/
structure Like where
  user : Nat
  content_type : CType
  object_id : Nat
  created_at : Nat
deriving DecidableEq, Repr

/-- notifications/models.py `Notification`: `recipient` FK, `actor` FK,
`verb`, `notification_type`, optional generic target. -/
structure Notification where
  recipient : Nat
  actor : Nat
  verb : String
  notification_type : String
  target_content_type : Option CType
  target_object_id : Option Nat
deriving DecidableEq, Repr

/-- The database state of the `social_media_api` project.  `users` holds
the ids of the `CustomUser` rows; `following` holds the rows of the
through table of `CustomUser.followers = ManyToManyField('self',
symmetrical=False, related_name='following')` (accounts/models.py):
the pair `(a, b)` records that user `a` follows user `b`, i.e. `b` is in
`a.following` and `a` is in `b.followers`. -/
structure SMState where
  users : List Nat
  following : List (Nat × Nat)
  posts : List Post
  comments : List Comment
  likes : List Like
  notifications : List Notification
deriving DecidableEq, Repr

/-- Evaluation of `u.following.all()`: the users `u` follows. -/
def followingOf (st : SMState) (u : Nat) : List Nat :=
  (st.following.filter (fun e => decide (e.1 = u))).map (fun e => e.2)

/-- Evaluation of `u.followers.all()`: the users following `u`. -/
def followersOf (st : SMState) (u : Nat) : List Nat :=
  (st.following.filter (fun e => decide (e.2 = u))).map (fun e => e.1)

/-- A DRF `Response`; only the HTTP status code is observed by the
claims, bodies are not modelled. -/
structure HttpResponse where
  status : Nat
deriving DecidableEq, Repr

/-- notifications/models.py `Notification.create_like_notification`:
inserts one row with `notification_type='like'` and a verb chosen from
the target's content type. -/
def createLikeNotification (st : SMState) (recipient actor : Nat)
    (target_ct : CType) (target_id : Nat) : SMState :=
  let verb := match target_ct with
    | CType.post => "liked your post"
    | CType.comment => "liked your comment"
  { st with notifications :=
      st.notifications ++ [⟨recipient, actor, verb, "like", some target_ct, some target_id⟩] }

/-- notifications/models.py `Notification.create_follow_notification`:
inserts one row with `notification_type='follow'` and no target. -/
def createFollowNotification (st : SMState) (recipient actor : Nat) : SMState :=
  { st with notifications :=
      st.notifications ++
        [⟨recipient, actor, "started following you", "follow", none, none⟩] }

/-- notifications/models.py `Notification.create_comment_notification`:
inserts one row with `notification_type='comment'`; the verb embeds the
first 50 characters of the comment text when one is passed and truthy
(i.e. non-empty). -/
def createCommentNotification (st : SMState) (recipient actor : Nat)
    (target_ct : CType) (target_id : Nat) (comment_text : String) : SMState :=
  let verb := if comment_text ≠ "" then
      "commented on your post: \"" ++ comment_text.take 50 ++ "...\""
    else
      "commented on your post"
  { st with notifications :=
      st.notifications ++ [⟨recipient, actor, verb, "comment", some target_ct, some target_id⟩] }

/-- Lookup `Post.objects.get(id=post_id)` as used by the like/unlike views:
`some` row or `none` (`Post.DoesNotExist`). -/
def findPost (st : SMState) (post_id : Nat) : Option Post :=
  st.posts.find? (fun p => decide (p.id = post_id))

/-- Lookup `Comment.objects.get(id=comment_id)`. -/
def findComment (st : SMState) (comment_id : Nat) : Option Comment :=
  st.comments.find? (fun c => decide (c.id = comment_id))

/-- Evaluation of `Like.objects.filter(user=u, content_type=ct, object_id=oid).exists()`
over a `Like` table. -/
def likeExistsIn (likes : List Like) (u : Nat) (ct : CType) (oid : Nat) : Bool :=
  likes.any (fun l =>
    decide (l.user = u) && decide (l.content_type = ct) && decide (l.object_id = oid))

/-- posts/views.py `LikePostView.post(request, post_id)`:
404 when the post does not exist; 400 when a `Like` row for
(user, Post, post.id) already exists; otherwise creates the `Like`,
creates a like notification for the post author unless the author is the
requesting user, and returns 201.  `now` is the wall clock stamped into
`Like.created_at` (`auto_now_add`). -/
def LikePostView.post (st : SMState) (now request_user post_id : Nat) :
    HttpResponse × SMState :=
  match findPost st post_id with
  | none => (⟨404⟩, st)
  | some post =>
    if likeExistsIn st.likes request_user CType.post post.id then
      (⟨400⟩, st)
    else
      let st1 := { st with likes := st.likes ++ [⟨request_user, CType.post, post.id, now⟩] }
      let st2 := if post.author ≠ request_user then
          createLikeNotification st1 post.author request_user CType.post post.id
        else st1
      (⟨201⟩, st2)

/-- posts/views.py `UnlikePostView.post(request, post_id)`:
404 when the post does not exist; otherwise deletes every `Like` row of
the requesting user for that post and returns 200 — whether or not any
such row existed. -/
def UnlikePostView.post (st : SMState) (request_user post_id : Nat) :
    HttpResponse × SMState :=
  match findPost st post_id with
  | none => (⟨404⟩, st)
  | some post =>
    (⟨200⟩, { st with likes := st.likes.filter (fun l =>
        !(decide (l.user = request_user) && decide (l.content_type = CType.post)
          && decide (l.object_id = post.id))) })

/-- posts/views.py `LikeCommentView.post(request, comment_id)`: the
comment counterpart of `LikePostView.post`. -/
def LikeCommentView.post (st : SMState) (now request_user comment_id : Nat) :
    HttpResponse × SMState :=
  match findComment st comment_id with
  | none => (⟨404⟩, st)
  | some comment =>
    if likeExistsIn st.likes request_user CType.comment comment.id then
      (⟨400⟩, st)
    else
      let st1 := { st with likes := st.likes ++ [⟨request_user, CType.comment, comment.id, now⟩] }
      let st2 := if comment.author ≠ request_user then
          createLikeNotification st1 comment.author request_user CType.comment comment.id
        else st1
      (⟨201⟩, st2)

/-- posts/serializers.py `CommentCreateSerializer` (`fields =
['content']`, a required, non-blank text field): `is_valid()` on a
request body that may or may not carry `content`. -/
def CommentCreateSerializer.is_valid (content : Option String) : Bool :=
  match content with
  | none => false
  | some c => decide (c ≠ "")

/-- Auto-increment primary key for the `Comment` table. -/
def nextCommentId (st : SMState) : Nat :=
  (st.comments.map Comment.id).foldr max 0 + 1

/-- The attributes resolvable on a `Comment` instance, read off
posts/models.py: the concrete fields, plus the `like_count` property
and the `user_has_liked` method.  No reverse relation exists either
(`Like` reaches its target only through a `GenericForeignKey`, and
`Comment` declares no `GenericRelation`), so no attribute `likes`
exists on a comment. -/
def commentAttributeNames : List String :=
  ["id", "post", "author", "content", "created_at", "updated_at",
   "like_count", "user_has_liked"]

/-- Python attribute access `getattr(obj, name)`: a name that is not
among the object's attributes raises `AttributeError`. -/
def getattrOn (names : List String) (name : String) : Except String Unit :=
  if name ∈ names then Except.ok ()
  else Except.error ("AttributeError: " ++ name)

/-- Rendering `CommentSerializer(comment, context={'request': request}).data`
for an authenticated request (the `comment` action runs under
`IsAuthenticated`, so the context's request is present and its user
authenticated).  The `is_liked` `SerializerMethodField` calls
`get_is_liked` (posts/serializers.py), which then evaluates
`obj.likes.filter(id=request.user.id).exists()` — and the attribute
access `obj.likes` fails, because `Comment` has no `likes` attribute
(see `commentAttributeNames`).  The `Except.ok` branch below is
therefore dead code (provably: `"likes" ∈ commentAttributeNames` is
decidably false). -/
def CommentSerializer.render (c : Comment) : Except String Unit :=
  match getattrOn commentAttributeNames "likes" with
  | Except.error e => Except.error e
  | Except.ok _ => Except.ok ()

/-- posts/views.py `PostViewSet.comment(request, pk)` (the second,
overriding definition in the class body): `get_object()` yields 404 for
a missing post; an invalid `CommentCreateSerializer` yields 400 with
the serializer errors; otherwise the comment is saved and a comment
notification is created for the post author unless the author is the
requesting user — but the `Response(CommentSerializer(comment,
...).data, status=201)` the code then builds never materializes:
rendering the serializer raises `AttributeError`
(`CommentSerializer.render`), which is not an exception the framework
translates, so Django answers 500.  The already-committed comment row
and notification persist (the sources configure no `ATOMIC_REQUESTS`,
so nothing is rolled back). -/
def PostViewSet.comment (st : SMState) (now request_user pk : Nat)
    (body_content : Option String) : HttpResponse × SMState :=
  match findPost st pk with
  | none => (⟨404⟩, st)
  | some post =>
    if CommentCreateSerializer.is_valid body_content then
      let c : Comment :=
        ⟨nextCommentId st, post.id, request_user, Option.getD body_content "", now⟩
      let st1 := { st with comments := st.comments ++ [c] }
      let st2 := if post.author ≠ request_user then
          createCommentNotification st1 post.author request_user CType.post post.id c.content
        else st1
      match CommentSerializer.render c with
      | Except.error _ => (⟨500⟩, st2)
      | Except.ok _ => (⟨201⟩, st2)
    else
      (⟨400⟩, st)

/-- accounts/views.py `FollowUserView.post(request)`: the body is
validated by `FollowSerializer` (a single required `user_id` integer
field) — a missing `user_id` is a serializer failure, 400.  Then, in
order: a `user_id` equal to the requester's own id is rejected with 400;
`get_object_or_404` yields 404 for an unknown id; an existing follow
edge is rejected with 400; otherwise the edge is added to
`request.user.following`, a follow notification is created for the
followed user, and 200 is returned. -/
def FollowUserView.post (st : SMState) (request_user : Nat)
    (body_user_id : Option Nat) : HttpResponse × SMState :=
  match body_user_id with
  | none => (⟨400⟩, st)
  | some user_id =>
    if user_id = request_user then
      (⟨400⟩, st)
    else
      match st.users.find? (fun u => decide (u = user_id)) with
      | none => (⟨404⟩, st)
      | some user_to_follow =>
        if st.following.any (fun e => decide (e = (request_user, user_to_follow))) then
          (⟨400⟩, st)
        else
          let st1 := { st with following := st.following ++ [(request_user, user_to_follow)] }
          (⟨200⟩, createFollowNotification st1 user_to_follow request_user)

/-- The names that a Django ORM lookup can resolve on `Post`, read off
posts/models.py: the concrete fields of `Post` (`id`, `author`, `title`,
`content`, `image`, `created_at`, `updated_at`) plus the reverse
relation `comments` contributed by `Comment.post`'s
`related_name='comments'`.  The `Like` model reaches its target through
a `GenericForeignKey` and `Post` declares no `GenericRelation` back, so
no name `likes` is resolvable on `Post` (the `related_name='likes'` on
`Like.user` hangs off the user model, not off `Post`). -/
def postQueryNames : List String :=
  ["id", "author", "title", "content", "image", "created_at", "updated_at", "comments"]

/-- ORM lookup-path resolution for one path segment: a segment that is
not among the model's resolvable names raises
`FieldError("Cannot resolve keyword ... into field")`. -/
def resolveLookup (names : List String) (name : String) : Except String Unit :=
  if name ∈ names then Except.ok ()
  else Except.error ("Cannot resolve keyword " ++ name ++ " into field")

/-- posts/feed_algorithm.py `FeedAlgorithm.get_personalized_feed(user,
limit=50)`.  The queryset is built lazily: the `filter` keeps posts
whose author is a followed user or the user themself, and the
`annotate` call then resolves its lookup paths against the `Post`
schema eagerly.  The first annotated expression is
`Count('likes', filter=Q(likes__liked_posts__created_at__gte=...))`,
whose first path segment `likes` does not resolve on `Post` (see
`postQueryNames`), so `annotate` raises `FieldError` before any
ordering or slicing happens.  The `Except.ok` branch below is therefore
dead code (provably: `"likes" ∈ postQueryNames` is decidably false);
it returns the filtered posts truncated to `limit`, the only part of
the pipeline whose meaning the schema still supports. -/
def FeedAlgorithm.get_personalized_feed (st : SMState) (user : Nat)
    (limit : Nat := 50) : Except String (List Post) :=
  let following_users := followingOf st user
  let posts := st.posts.filter (fun p =>
    decide (p.author ∈ following_users) || decide (p.author = user))
  match resolveLookup postQueryNames "likes" with
  | Except.error e => Except.error e
  | Except.ok _ => Except.ok (posts.take limit)

/-- The column triple constrained by `Like.Meta.unique_together`. -/
def likeKey (l : Like) : Nat × CType × Nat := (l.user, l.content_type, l.object_id)

/-- The `unique_together = ['user', 'content_type', 'object_id']`
constraint of posts/models.py on a `Like` table: no two rows share the
(user, content type, object id) triple. -/
def unique_like_per_user_object (likes : List Like) : Prop :=
  (likes.map likeKey).Nodup

/-- A concrete post (id 1, author 1) used by the closed witness
theorems. -/
def post1 : Post := ⟨1, 1, "first", "hello", 0⟩

/-- A concrete comment (id 1, on post 1, author 1) used by the closed
witness theorems. -/
def comment1 : Comment := ⟨1, 1, 1, "nice", 0⟩

/-- A concrete state with two users, one post and one comment (both by
user 1) and no likes. -/
def stExample : SMState := ⟨[1, 2], [], [post1], [comment1], [], []⟩

/-- State `stExample` after user 1 has liked post 1. -/
def stLiked : SMState := ⟨[1, 2], [], [post1], [comment1], [⟨1, CType.post, 1, 0⟩], []⟩

end SocialMediaApi

namespace AdvancedApi

/-- advanced-api-project/api/models.py `Book`: `title` (max 200 chars),
`publication_year`, `author` FK;
`Meta.unique_together = ['title', 'author']`. -/
structure Book where
  id : Nat
  title : String
  publication_year : Int
  author : Nat
deriving DecidableEq, Repr

/-- The database state of the advanced API project: the ids of the
`Author` rows and the `Book` table. -/
structure ApiState where
  authors : List Nat
  books : List Book
deriving DecidableEq, Repr

/-- One element of the `books` list posted to the bulk endpoint: the
three writable fields of `BookSerializer`, each possibly absent from
the JSON object. -/
structure BookPayload where
  title : Option String
  publication_year : Option Int
  author : Option Nat
deriving DecidableEq, Repr

/-- Field-level errors of `BookSerializer.title` (required `CharField`,
`max_length=200`, not blank). -/
def titleErrors (t : Option String) : List String :=
  match t with
  | none => ["title: This field is required."]
  | some s =>
    (if s = "" then ["title: This field may not be blank."] else []) ++
    (if 200 < s.length then
      ["title: Ensure this field has no more than 200 characters."] else [])

/-- Field-level errors of `BookSerializer.publication_year`: required,
and `validate_publication_year` (api/serializers.py) rejects a year
greater than the current year. -/
def publicationYearErrors (currentYear : Int) (y : Option Int) : List String :=
  match y with
  | none => ["publication_year: This field is required."]
  | some v =>
    if currentYear < v then
      ["publication_year: Publication year cannot be in the future."] else []

/-- Field-level errors of `BookSerializer.author`
(`PrimaryKeyRelatedField`: the referenced `Author` row must exist). -/
def authorErrors (st : ApiState) (a : Option Nat) : List String :=
  match a with
  | none => ["author: This field is required."]
  | some aid =>
    if aid ∈ st.authors then []
    else ["author: Invalid pk - object does not exist."]

/-- The `UniqueTogetherValidator` DRF derives from
`Book.Meta.unique_together = ['title', 'author']`: rejects a payload
whose (title, author) pair already names an existing `Book` row.  DRF
runs it only when both fields made it through field validation. -/
def uniqueTogetherErrors (st : ApiState) (d : BookPayload) : List String :=
  match d.title, d.author with
  | some t, some a =>
    if st.books.any (fun b => decide (b.title = t) && decide (b.author = a)) then
      ["non_field_errors: The fields title, author must make a unique set."]
    else []
  | _, _ => []

/-- Validation `BookSerializer(data=book_data).is_valid()`: field errors are
collected first (`to_internal_value`); the unique-together validator
runs only when no field error occurred.  The payload is valid iff the
resulting list is empty. -/
def bookSerializerErrors (st : ApiState) (currentYear : Int) (d : BookPayload) :
    List String :=
  let fieldErrors :=
    titleErrors d.title ++ publicationYearErrors currentYear d.publication_year
      ++ authorErrors st d.author
  if fieldErrors = [] then uniqueTogetherErrors st d else fieldErrors

/-- Auto-increment primary key for the `Book` table. -/
def nextBookId (st : ApiState) : Nat :=
  (st.books.map Book.id).foldr max 0 + 1

/-- Saving (`serializer.save()`) for a validated `BookSerializer`: inserts the
`Book` row built from the validated data (the `Option.getD` defaults
are unreachable on the valid path, where every field is present) and
returns it. -/
def saveBook (st : ApiState) (d : BookPayload) : ApiState × Book :=
  let b : Book := ⟨nextBookId st, Option.getD d.title "",
    Option.getD d.publication_year 0, Option.getD d.author 0⟩
  ({ st with books := st.books ++ [b] }, b)

/-- The `results` dictionary and status of the bulk response. -/
structure BulkResult where
  status : Nat
  created : List Book
  errors : List (BookPayload × List String)
deriving DecidableEq, Repr

/-- The `for book_data in books_data` loop of
`BookBulkOperationsView.post` (api/views.py): each payload is validated
against the current state; a valid one is saved (its row appended to
`created`), an invalid one is appended to `errors` with its per-item
serializer errors, and the loop continues either way. -/
def bulkCreateLoop (st : ApiState) (currentYear : Int) :
    List BookPayload → ApiState × List Book × List (BookPayload × List String)
  | [] => (st, [], [])
  | d :: rest =>
    let errs := bookSerializerErrors st currentYear d
    if errs = [] then
      let saved := saveBook st d
      let r := bulkCreateLoop saved.1 currentYear rest
      (r.1, saved.2 :: r.2.1, r.2.2)
    else
      let r := bulkCreateLoop st currentYear rest
      (r.1, r.2.1, (d, errs) :: r.2.2)

/-- advanced-api-project/api/views.py `BookBulkOperationsView.post`:
runs the loop over the posted `books` list and always responds with
status 207 and both accumulated lists. -/
def BookBulkOperationsView.post (st : ApiState) (currentYear : Int)
    (books_data : List BookPayload) : BulkResult × ApiState :=
  let r := bulkCreateLoop st currentYear books_data
  (⟨207, r.2.1, r.2.2⟩, r.1)

/-- The list `rest_framework.permissions.SAFE_METHODS`. -/
def SAFE_METHODS : List String := ["GET", "HEAD", "OPTIONS"]

/-- The part of a DRF request that `IsOwnerOrReadOnly` reads. -/
structure Request where
  method : String
  user : Nat
deriving DecidableEq, Repr

/-- An object with an `owner` attribute, as compared by
`IsOwnerOrReadOnly`. -/
structure OwnedObject where
  owner : Nat
deriving DecidableEq, Repr

/-- advanced-api-project/api/permissions.py
`IsOwnerOrReadOnly.has_object_permission`: `True` for safe methods,
otherwise `obj.owner == request.user`. -/
def IsOwnerOrReadOnly.has_object_permission (request : Request)
    (obj : OwnedObject) : Bool :=
  if request.method ∈ SAFE_METHODS then true
  else decide (obj.owner = request.user)

end AdvancedApi

namespace DjangoModels

/-- django-models/LibraryProject/relationship_app/models.py
`UserProfile`: `user = OneToOneField(User)`, `role` with
`default='member'`. -/
structure UserProfile where
  user : Nat
  role : String
deriving DecidableEq, Repr

/-- The relevant database state of the relationship_app: the ids of the
`User` rows and the `UserProfile` table. -/
structure LibState where
  users : List Nat
  profiles : List UserProfile
deriving DecidableEq, Repr

/-- Creation of a new `User` row with id `uid`, together with the
`post_save` receivers of relationship_app/models.py: the insert fires
`post_save` with `created=True`, so `create_user_profile` runs
`UserProfile.objects.create(user=instance)` — a profile with the `role`
field left to its default `'member'` — and `save_user_profile` then
re-saves that existing profile, adding no row. -/
def createUser (st : LibState) (uid : Nat) : LibState :=
  { st with users := st.users ++ [uid],
            profiles := st.profiles ++ [⟨uid, "member"⟩] }

/-- The `OneToOneField` uniqueness constraint on `UserProfile.user`: no
two profile rows share a user. -/
def one_profile_per_user (st : LibState) : Prop :=
  (st.profiles.map UserProfile.user).Nodup

end DjangoModels

namespace SocialMediaApi

/-- Helper: `find?` with an equality predicate returns the sought
element whenever it is present. -/
theorem find?_self_of_mem {b : Nat} {l : List Nat} (h : b ∈ l) :
    l.find? (fun u => decide (u = b)) = some b := by
  induction l with
  | nil => exact absurd h (List.not_mem_nil b)
  | cons x xs ih =>
    by_cases hx : x = b
    · subst hx
      rw [List.find?_cons_of_pos _ (by simp)]
    · have hb : b ∈ xs := by
        rcases List.mem_cons.mp h with h1 | h1
        · exact absurd h1.symm hx
        · exact h1
      rw [List.find?_cons_of_neg _ (by simpa using hx)]
      exact ih hb

/-- Helper: filtering twice with the same predicate filters once. -/
theorem filter_idem {α : Type} (p : α → Bool) (l : List α) :
    (l.filter p).filter p = l.filter p := by
  induction l with
  | nil => rfl
  | cons x xs ih =>
    by_cases h : p x = true
    · simp [List.filter_cons, h, ih]
    · simp [List.filter_cons, h, ih]

/-- Claim C7: the follower graph is non-symmetrical.  When user `a`
follows user `b` through `FollowUserView` (with `a ≠ b`, `b` existing
and not yet followed by `a`), `a` appears in `b`'s followers set
afterwards, while `b`'s following set is exactly what it was before —
in particular `a` following `b` does not make `b` follow `a`. -/
theorem follow_nonsymmetric (st : SMState) (a b : Nat)
    (hab : a ≠ b) (hb : b ∈ st.users) (hnf : (a, b) ∉ st.following) :
    a ∈ followersOf (FollowUserView.post st a (some b)).2 b ∧
    followingOf (FollowUserView.post st a (some b)).2 b = followingOf st b := by
  have hres : (FollowUserView.post st a (some b)).2
      = { st with following := st.following ++ [(a, b)],
                  notifications := st.notifications ++
                    [⟨b, a, "started following you", "follow", none, none⟩] } := by
    simp [FollowUserView.post, Ne.symm hab, find?_self_of_mem hb,
      createFollowNotification, List.any_eq_true, hnf]
  rw [hres]
  constructor
  · simp [followersOf, List.filter_append]
  · simp [followingOf, List.filter_append, hab]

/-- Witness for claim C7: in `stExample`, user 1 follows user 2; then 1
is among 2's followers and 2's following set is unchanged. -/
theorem follow_nonsymmetric_witness :
    1 ∈ followersOf (FollowUserView.post stExample 1 (some 2)).2 2 ∧
    followingOf (FollowUserView.post stExample 1 (some 2)).2 2
      = followingOf stExample 2 :=
  follow_nonsymmetric stExample 1 2 (by decide) (by decide) (by decide)

/-- Claim C9: no self-notification.  When a user likes their own post
and their own comment (both existing and not yet liked by them), both
like requests succeed with 201 and record the `Like` row, and the
notification table is left untouched. -/
theorem no_self_notification (st : SMState) (now u pid cid : Nat)
    (p : Post) (c : Comment)
    (hp : findPost st pid = some p) (hpa : p.author = u)
    (hnlp : likeExistsIn st.likes u CType.post p.id = false)
    (hc : findComment st cid = some c) (hca : c.author = u)
    (hnlc : likeExistsIn st.likes u CType.comment c.id = false) :
    (LikePostView.post st now u pid).1.status = 201 ∧
    (LikePostView.post st now u pid).2.likes
      = st.likes ++ [⟨u, CType.post, p.id, now⟩] ∧
    (LikePostView.post st now u pid).2.notifications = st.notifications ∧
    (LikeCommentView.post st now u cid).1.status = 201 ∧
    (LikeCommentView.post st now u cid).2.likes
      = st.likes ++ [⟨u, CType.comment, c.id, now⟩] ∧
    (LikeCommentView.post st now u cid).2.notifications = st.notifications := by
  have h1 : LikePostView.post st now u pid
      = (⟨201⟩, { st with likes := st.likes ++ [⟨u, CType.post, p.id, now⟩] }) := by
    simp [LikePostView.post, hp, hnlp, hpa]
  have h2 : LikeCommentView.post st now u cid
      = (⟨201⟩, { st with likes := st.likes ++ [⟨u, CType.comment, c.id, now⟩] }) := by
    simp [LikeCommentView.post, hc, hnlc, hca]
  rw [h1, h2]
  exact ⟨rfl, rfl, rfl, rfl, rfl, rfl⟩

/-- Witness for claim C9: user 1 likes their own post 1 and their own
comment 1 in `stExample`; both succeed and no notification appears. -/
theorem no_self_notification_witness :
    (LikePostView.post stExample 5 1 1).1.status = 201 ∧
    (LikePostView.post stExample 5 1 1).2.likes
      = stExample.likes ++ [⟨1, CType.post, post1.id, 5⟩] ∧
    (LikePostView.post stExample 5 1 1).2.notifications = stExample.notifications ∧
    (LikeCommentView.post stExample 5 1 1).1.status = 201 ∧
    (LikeCommentView.post stExample 5 1 1).2.likes
      = stExample.likes ++ [⟨1, CType.comment, comment1.id, 5⟩] ∧
    (LikeCommentView.post stExample 5 1 1).2.notifications = stExample.notifications :=
  no_self_notification stExample 5 1 1 1 post1 comment1 (by decide) (by decide)
    (by decide) (by decide) (by decide) (by decide)

/-- Helper: the reduction of `UnlikePostView.post` on an existing
post. -/
theorem unlikePost_eq_of_find (st : SMState) (u pid : Nat) (p : Post)
    (hp : findPost st pid = some p) :
    UnlikePostView.post st u pid
      = (⟨200⟩, { st with likes := st.likes.filter (fun l =>
          !(decide (l.user = u) && decide (l.content_type = CType.post)
            && decide (l.object_id = p.id))) }) := by
  unfold UnlikePostView.post
  rw [hp]

/-- Claim C10: unlike is idempotent.  For an existing post, the unlike
request returns 200, leaves no `Like` row of that user for that post,
and running it a second time returns 200 again and leaves the state of
the first run unchanged. -/
theorem unlike_idempotent (st : SMState) (u pid : Nat) (p : Post)
    (hp : findPost st pid = some p) :
    (UnlikePostView.post st u pid).1.status = 200 ∧
    UnlikePostView.post (UnlikePostView.post st u pid).2 u pid
      = (⟨200⟩, (UnlikePostView.post st u pid).2) ∧
    ∀ l ∈ (UnlikePostView.post st u pid).2.likes,
      ¬(l.user = u ∧ l.content_type = CType.post ∧ l.object_id = p.id) := by
  have h1 := unlikePost_eq_of_find st u pid p hp
  refine ⟨by rw [h1], ?_, ?_⟩
  · have h2 := unlikePost_eq_of_find { st with likes := st.likes.filter (fun l =>
        !(decide (l.user = u) && decide (l.content_type = CType.post)
          && decide (l.object_id = p.id))) } u pid p hp
    rw [h1, h2]
    simp only [filter_idem]
  · rw [h1]
    intro l hl
    have hmem := (List.mem_filter.mp hl).2
    rintro ⟨e1, e2, e3⟩
    simp [e1, e2, e3] at hmem

/-- Witness for claim C10: in `stLiked` (user 1 has liked post 1),
unliking post 1 returns 200 and doing it again returns 200 on the same
state. -/
theorem unlike_idempotent_witness :
    (UnlikePostView.post stLiked 1 1).1.status = 200 ∧
    UnlikePostView.post (UnlikePostView.post stLiked 1 1).2 1 1
      = (⟨200⟩, (UnlikePostView.post stLiked 1 1).2) :=
  ⟨(unlike_idempotent stLiked 1 1 post1 (by decide)).1,
   (unlike_idempotent stLiked 1 1 post1 (by decide)).2.1⟩

/-- Counterexample for claim C2: not every error response comes from
the framework's exception-to-status translation.  In `stLiked`, user 1
sends a body-less like request for the existing post 1 — nothing fails
serializer validation (the handler runs no serializer), permission is
granted (the user is authenticated) and the object is found — yet the
response is a 400 error, built directly by `LikePostView.post` when it
sees the duplicate like, and the state is returned unchanged. -/
theorem error_not_only_from_translation :
    (LikePostView.post stLiked 5 1 1).1.status = 400 ∧
    (findPost stLiked 1).isSome = true ∧
    (LikePostView.post stLiked 5 1 1).2 = stLiked := by decide

/-- Helper: rendering `CommentSerializer` always raises, for any
comment — the failing `obj.likes` access does not depend on the row. -/
theorem commentSerializer_render_raises (c : Comment) :
    CommentSerializer.render c = Except.error "AttributeError: likes" := rfl

/-- Claim C2 as amended: the status mapping holds where the framework
translation runs (missing object → 404, failed body validation → 400 in
`PostViewSet.comment`), but error responses also arise outside it.
The like views produce a hand-built 400 — not a validation failure —
exactly when the target exists and the user already liked it:
`LikePostView.post` answers 404 iff the post is missing, 400 iff it
exists and the duplicate-like check fires, and 201 otherwise.  And
`PostViewSet.comment` answers 404 iff the post is missing, 400 iff it
exists and the comment body fails `CommentCreateSerializer`, and — in
place of the 201 the code intends — 500 whenever the body is valid,
because rendering the response dereferences the nonexistent
`Comment.likes` attribute and the resulting `AttributeError` is not
translated; the saved comment row nevertheless persists in the
resulting state. -/
theorem error_status_characterization (st : SMState) (now u pid : Nat)
    (body : Option String) :
    ((LikePostView.post st now u pid).1.status = 404 ↔ findPost st pid = none) ∧
    ((LikePostView.post st now u pid).1.status = 400 ↔
      ∃ p, findPost st pid = some p ∧
        likeExistsIn st.likes u CType.post p.id = true) ∧
    ((LikePostView.post st now u pid).1.status = 201 ↔
      ∃ p, findPost st pid = some p ∧
        likeExistsIn st.likes u CType.post p.id = false) ∧
    ((PostViewSet.comment st now u pid body).1.status = 404 ↔
      findPost st pid = none) ∧
    ((PostViewSet.comment st now u pid body).1.status = 400 ↔
      (findPost st pid).isSome = true ∧
        CommentCreateSerializer.is_valid body = false) ∧
    ((PostViewSet.comment st now u pid body).1.status = 500 ↔
      (findPost st pid).isSome = true ∧
        CommentCreateSerializer.is_valid body = true) ∧
    (∀ p, findPost st pid = some p →
      CommentCreateSerializer.is_valid body = true →
      (PostViewSet.comment st now u pid body).2.comments
        = st.comments ++ [⟨nextCommentId st, p.id, u, Option.getD body "", now⟩]) := by
  rcases hfp : findPost st pid with _ | p
  · simp [LikePostView.post, PostViewSet.comment, hfp]
  · by_cases hex : likeExistsIn st.likes u CType.post p.id = true
    · by_cases hv : CommentCreateSerializer.is_valid body = true
      · simp [LikePostView.post, PostViewSet.comment, hfp, hex, hv,
          commentSerializer_render_raises, createCommentNotification, apply_ite]
      · simp [LikePostView.post, PostViewSet.comment, hfp, hex,
          Bool.eq_false_iff.mpr hv]
    · by_cases hv : CommentCreateSerializer.is_valid body = true
      · simp [LikePostView.post, PostViewSet.comment, hfp,
          Bool.eq_false_iff.mpr hex, hv,
          commentSerializer_render_raises, createCommentNotification, apply_ite]
      · simp [LikePostView.post, PostViewSet.comment, hfp,
          Bool.eq_false_iff.mpr hex, Bool.eq_false_iff.mpr hv]

/-- Witness for claim C2's amended theorem: in `stExample`, user 2
posts a valid comment body on the existing post 1; the response status
is 500 (the serializer rendering raises), yet the comment row is in the
resulting state. -/
theorem error_status_characterization_witness :
    (PostViewSet.comment stExample 5 2 1 (some "hey")).1.status = 500 ∧
    (PostViewSet.comment stExample 5 2 1 (some "hey")).2.comments
      = stExample.comments ++ [⟨nextCommentId stExample, post1.id, 2, "hey", 5⟩] :=
  ⟨((error_status_characterization stExample 5 2 1 (some "hey")).2.2.2.2.2.1).mpr
      (by decide),
   (error_status_characterization stExample 5 2 1 (some "hey")).2.2.2.2.2.2 post1
      (by decide) (by decide)⟩

/-- Claim C8: a `FollowUserView` request whose `user_id` equals the
requesting user's own id is answered with status 400 and changes
nothing: no follow edge and no notification row is added, the state is
returned untouched. -/
theorem self_follow_rejected (st : SMState) (u : Nat) :
    FollowUserView.post st u (some u) = (⟨400⟩, st) := by
  simp [FollowUserView.post]

/-- Helper: when no `Like` row with the triple of `nl` exists, the key
of `nl` is absent from the key column of the table. -/
theorem likeKey_not_mem_of_not_exists {likes : List Like} {nl : Like}
    (h : likeExistsIn likes nl.user nl.content_type nl.object_id = false) :
    likeKey nl ∉ likes.map likeKey := by
  intro hmem
  rcases List.mem_map.mp hmem with ⟨l, hl, hk⟩
  have hcon : l.user = nl.user ∧ l.content_type = nl.content_type
      ∧ l.object_id = nl.object_id := by
    simpa [likeKey, Prod.ext_iff] using hk
  have : likeExistsIn likes nl.user nl.content_type nl.object_id = true := by
    simp only [likeExistsIn, List.any_eq_true]
    exact ⟨l, hl, by simp [hcon.1, hcon.2.1, hcon.2.2]⟩
  rw [h] at this
  exact Bool.false_ne_true this

/-- Helper: inserting a `Like` row whose triple is not yet present
preserves the `unique_together` constraint. -/
theorem unique_like_insert (likes : List Like) (nl : Like)
    (hU : unique_like_per_user_object likes)
    (h : likeExistsIn likes nl.user nl.content_type nl.object_id = false) :
    unique_like_per_user_object (likes ++ [nl]) := by
  unfold unique_like_per_user_object at hU ⊢
  rw [List.map_append]
  exact hU.append (List.nodup_singleton _)
    (List.disjoint_singleton.mpr (likeKey_not_mem_of_not_exists h))

/-- Claim C4: uniqueness of likes is an invariant.  If no two `Like`
rows share a (user, content type, object id) triple, then after any
`LikePostView` or `LikeCommentView` request — the only operations that
create `Like` rows — still no two rows share a triple: both views
refuse (400) to insert when the triple already exists. -/
theorem like_unique_preserved (st : SMState) (now u pid cid : Nat)
    (h : unique_like_per_user_object st.likes) :
    unique_like_per_user_object (LikePostView.post st now u pid).2.likes ∧
    unique_like_per_user_object (LikeCommentView.post st now u cid).2.likes := by
  constructor
  · rcases hfp : findPost st pid with _ | p
    · simpa [LikePostView.post, hfp] using h
    · by_cases hex : likeExistsIn st.likes u CType.post p.id = true
      · simpa [LikePostView.post, hfp, hex] using h
      · have hex' : likeExistsIn st.likes u CType.post p.id = false :=
          Bool.eq_false_iff.mpr hex
        have hlikes : (LikePostView.post st now u pid).2.likes
            = st.likes ++ [⟨u, CType.post, p.id, now⟩] := by
          by_cases ha : p.author = u
          · simp [LikePostView.post, hfp, hex', ha]
          · simp [LikePostView.post, hfp, hex', ha, createLikeNotification]
        rw [hlikes]
        exact unique_like_insert st.likes ⟨u, CType.post, p.id, now⟩ h hex'
  · rcases hfc : findComment st cid with _ | c
    · simpa [LikeCommentView.post, hfc] using h
    · by_cases hex : likeExistsIn st.likes u CType.comment c.id = true
      · simpa [LikeCommentView.post, hfc, hex] using h
      · have hex' : likeExistsIn st.likes u CType.comment c.id = false :=
          Bool.eq_false_iff.mpr hex
        have hlikes : (LikeCommentView.post st now u cid).2.likes
            = st.likes ++ [⟨u, CType.comment, c.id, now⟩] := by
          by_cases ha : c.author = u
          · simp [LikeCommentView.post, hfc, hex', ha]
          · simp [LikeCommentView.post, hfc, hex', ha, createLikeNotification]
        rw [hlikes]
        exact unique_like_insert st.likes ⟨u, CType.comment, c.id, now⟩ h hex'

/-- Witness for claim C4: starting from `stExample` (no likes), user 2
liking post 1 and user 2 liking comment 1 both preserve the
unique-like constraint. -/
theorem like_unique_preserved_witness :
    unique_like_per_user_object (LikePostView.post stExample 5 2 1).2.likes ∧
    unique_like_per_user_object (LikeCommentView.post stExample 5 2 1).2.likes :=
  like_unique_preserved stExample 5 2 1 1
    (by unfold unique_like_per_user_object; decide)

/-- Claim C1 (code-bug evidence): for every state, user and limit,
`FeedAlgorithm.get_personalized_feed` does not return a list of posts
at all — its `annotate` call references the lookup `likes`, which is
not a resolvable name on `Post` (the `Like` model is linked only by a
`GenericForeignKey` and `Post` declares no `GenericRelation`), so the
ORM raises `FieldError` before ordering or truncating anything. -/
theorem personalized_feed_raises_field_error (st : SMState) (user limit : Nat) :
    FeedAlgorithm.get_personalized_feed st user limit
      = Except.error "Cannot resolve keyword likes into field" := rfl

end SocialMediaApi

namespace AdvancedApi

/-- Helper: the bulk-create loop only appends to the `Book` table. -/
theorem bulkCreateLoop_books_extends (y : Int) (items : List BookPayload) :
    ∀ st : ApiState, ∃ ext, (bulkCreateLoop st y items).1.books = st.books ++ ext := by
  induction items with
  | nil => intro st; exact ⟨[], by simp [bulkCreateLoop]⟩
  | cons d rest ih =>
    intro st
    by_cases h : bookSerializerErrors st y d = []
    · rcases ih (saveBook st d).1 with ⟨ext, hext⟩
      refine ⟨(saveBook st d).2 :: ext, ?_⟩
      simp only [bulkCreateLoop, h, if_pos]
      rw [hext]
      simp [saveBook]
    · rcases ih st with ⟨ext, hext⟩
      refine ⟨ext, ?_⟩
      simp only [bulkCreateLoop, h, if_neg, not_false_iff]
      exact hext

/-- Helper: each payload contributes exactly one entry, to `created` or
to `errors`. -/
theorem bulkCreateLoop_length (y : Int) (items : List BookPayload) :
    ∀ st : ApiState,
      (bulkCreateLoop st y items).2.1.length
        + (bulkCreateLoop st y items).2.2.length = items.length := by
  induction items with
  | nil => intro st; simp [bulkCreateLoop]
  | cons d rest ih =>
    intro st
    by_cases h : bookSerializerErrors st y d = []
    · simp only [bulkCreateLoop, h, if_pos, List.length_cons]
      have := ih (saveBook st d).1
      simpa [Nat.succ_add] using congrArg Nat.succ this
    · simp only [bulkCreateLoop, h, if_neg, not_false_iff, List.length_cons]
      have := ih st
      omega

/-- Claim C3: the bulk-create endpoint processes its payload items one
by one in order and always answers 207 with both lists.  For every
state and item list: the response status is 207; every item lands in
exactly one of `created` and `errors`; a head item that validates is
saved (its row is in the final `Book` table) and prepended to
`created`, with the rest processed from the post-save state; a head
item that fails validation is prepended to `errors` together with its
own serializer errors and changes nothing — the rest is processed from
the unchanged state, so an invalid item never prevents the creation of
the valid items. -/
theorem bulk_create_partial_success (st : ApiState) (y : Int)
    (items : List BookPayload) :
    (BookBulkOperationsView.post st y items).1.status = 207 ∧
    (BookBulkOperationsView.post st y items).1.created.length
      + (BookBulkOperationsView.post st y items).1.errors.length = items.length ∧
    (∀ d rest, bookSerializerErrors st y d = [] →
      (BookBulkOperationsView.post st y (d :: rest)).1.created
          = (saveBook st d).2
            :: (BookBulkOperationsView.post (saveBook st d).1 y rest).1.created ∧
      (BookBulkOperationsView.post st y (d :: rest)).1.errors
          = (BookBulkOperationsView.post (saveBook st d).1 y rest).1.errors ∧
      (saveBook st d).2 ∈ (BookBulkOperationsView.post st y (d :: rest)).2.books) ∧
    (∀ d rest, bookSerializerErrors st y d ≠ [] →
      (BookBulkOperationsView.post st y (d :: rest)).1.created
          = (BookBulkOperationsView.post st y rest).1.created ∧
      (BookBulkOperationsView.post st y (d :: rest)).1.errors
          = (d, bookSerializerErrors st y d)
            :: (BookBulkOperationsView.post st y rest).1.errors ∧
      (BookBulkOperationsView.post st y (d :: rest)).2
          = (BookBulkOperationsView.post st y rest).2) := by
  refine ⟨rfl, ?_, ?_, ?_⟩
  · exact bulkCreateLoop_length y items st
  · intro d rest hd
    refine ⟨?_, ?_, ?_⟩
    · simp [BookBulkOperationsView.post, bulkCreateLoop, hd]
    · simp [BookBulkOperationsView.post, bulkCreateLoop, hd]
    · show (saveBook st d).2 ∈ (bulkCreateLoop st y (d :: rest)).1.books
      have hstep : (bulkCreateLoop st y (d :: rest)).1
          = (bulkCreateLoop (saveBook st d).1 y rest).1 := by
        simp [bulkCreateLoop, hd]
      rw [hstep]
      rcases bulkCreateLoop_books_extends y rest (saveBook st d).1 with ⟨ext, hext⟩
      rw [hext]
      have : (saveBook st d).2 ∈ (saveBook st d).1.books := by
        simp [saveBook]
      exact List.mem_append_left ext this
  · intro d rest hd
    refine ⟨?_, ?_, ?_⟩
    · simp [BookBulkOperationsView.post, bulkCreateLoop, hd]
    · simp [BookBulkOperationsView.post, bulkCreateLoop, hd]
    · simp [BookBulkOperationsView.post, bulkCreateLoop, hd]

/-- Witness for claim C3 at concrete inputs: with author 1 present and
current year 2025, the payload (title A, year 2000, author 1) validates
and is prepended to `created`, while the payload missing its title with
year 3000 and unknown author 2 fails and is prepended to `errors` with
its per-item error list; both responses carry status 207. -/
theorem bulk_create_partial_success_witness :
    (BookBulkOperationsView.post ⟨[1], []⟩ 2025 [⟨some "A", some 2000, some 1⟩]).1.created
        = (saveBook ⟨[1], []⟩ ⟨some "A", some 2000, some 1⟩).2
          :: (BookBulkOperationsView.post
                (saveBook ⟨[1], []⟩ ⟨some "A", some 2000, some 1⟩).1 2025 []).1.created ∧
    (BookBulkOperationsView.post ⟨[1], []⟩ 2025 [⟨none, some 3000, some 2⟩]).1.errors
        = (⟨none, some 3000, some 2⟩,
            bookSerializerErrors ⟨[1], []⟩ 2025 ⟨none, some 3000, some 2⟩)
          :: (BookBulkOperationsView.post ⟨[1], []⟩ 2025 []).1.errors ∧
    (BookBulkOperationsView.post ⟨[1], []⟩ 2025
        [⟨some "A", some 2000, some 1⟩, ⟨none, some 3000, some 2⟩]).1.status = 207 :=
  ⟨((bulk_create_partial_success ⟨[1], []⟩ 2025 []).2.2.1
      ⟨some "A", some 2000, some 1⟩ [] (by decide)).1,
   ((bulk_create_partial_success ⟨[1], []⟩ 2025 []).2.2.2
      ⟨none, some 3000, some 2⟩ [] (by decide)).2.1,
   (bulk_create_partial_success ⟨[1], []⟩ 2025
      [⟨some "A", some 2000, some 1⟩, ⟨none, some 3000, some 2⟩]).1⟩

/-- Claim C6: `IsOwnerOrReadOnly.has_object_permission` grants every
request using a safe method (GET, HEAD, OPTIONS), and grants a request
using any other method exactly when the object's `owner` equals the
requesting user. -/
theorem is_owner_or_read_only_predicate (request : Request) (obj : OwnedObject) :
    (request.method ∈ SAFE_METHODS →
      IsOwnerOrReadOnly.has_object_permission request obj = true) ∧
    (request.method ∉ SAFE_METHODS →
      (IsOwnerOrReadOnly.has_object_permission request obj = true ↔
        obj.owner = request.user)) := by
  constructor
  · intro h
    simp [IsOwnerOrReadOnly.has_object_permission, h]
  · intro h
    simp [IsOwnerOrReadOnly.has_object_permission, h]

/-- Witness for claim C6 at concrete requests: a GET by user 5 on an
object owned by 9 is allowed, and a DELETE by user 5 on the same object
is allowed exactly when 9 = 5 (i.e. it is denied). -/
theorem is_owner_or_read_only_predicate_witness :
    IsOwnerOrReadOnly.has_object_permission ⟨"GET", 5⟩ ⟨9⟩ = true ∧
    (IsOwnerOrReadOnly.has_object_permission ⟨"DELETE", 5⟩ ⟨9⟩ = true ↔ (9 : Nat) = 5) :=
  ⟨(is_owner_or_read_only_predicate ⟨"GET", 5⟩ ⟨9⟩).1 (by decide),
   (is_owner_or_read_only_predicate ⟨"DELETE", 5⟩ ⟨9⟩).2 (by decide)⟩

end AdvancedApi

namespace DjangoModels

/-- Claim C5: one profile per user.  Creating a fresh `User` (whose id
carries no existing profile) automatically creates exactly one
`UserProfile` for it, with the default role `member` — that profile is
the only one filtering on the new user's id finds — and the one-to-one
constraint (no user with more than one profile) is preserved. -/
theorem one_member_profile_created (st : LibState) (uid : Nat)
    (hfresh : uid ∉ st.profiles.map UserProfile.user)
    (hinv : one_profile_per_user st) :
    (createUser st uid).profiles.filter (fun q => decide (q.user = uid))
        = [⟨uid, "member"⟩] ∧
    one_profile_per_user (createUser st uid) := by
  constructor
  · show (st.profiles ++ [(⟨uid, "member"⟩ : UserProfile)]).filter
        (fun q => decide (q.user = uid)) = [⟨uid, "member"⟩]
    rw [List.filter_append]
    have h1 : st.profiles.filter (fun q => decide (q.user = uid)) = [] := by
      rw [List.filter_eq_nil_iff]
      intro q hq
      simp only [decide_eq_true_eq]
      intro he
      exact hfresh (List.mem_map.mpr ⟨q, hq, he⟩)
    rw [h1]
    simp
  · show ((st.profiles ++ [(⟨uid, "member"⟩ : UserProfile)]).map UserProfile.user).Nodup
    rw [List.map_append]
    exact hinv.append (List.nodup_singleton _)
      (List.disjoint_singleton.mpr (by simpa using hfresh))

/-- Witness for claim C5: creating user 7 in the empty library state
yields exactly one profile for 7, with role `member`, and keeps the
one-profile-per-user constraint. -/
theorem one_member_profile_created_witness :
    (createUser ⟨[], []⟩ 7).profiles.filter (fun q => decide (q.user = 7))
        = [⟨7, "member"⟩] ∧
    one_profile_per_user (createUser ⟨[], []⟩ 7) :=
  one_member_profile_created ⟨[], []⟩ 7 (by decide)
    (by unfold one_profile_per_user; decide)

end DjangoModels
